import Mathlib

/-!
# nodejs-demo-app: the HTTP service (`app.js`) and its smoke test (`test.js`)

A shallow embedding of the two source files.

* The ambient process state the handlers read (`process.env`, `process.uptime()`,
  `process.version`, the clock behind `new Date()`) is collected in `Context`.
* `process.env.NAME || dflt` is `envOr`: an environment variable is either
  undefined or a string, and the only falsy string is the empty one.
* A handler is a function of the request, the context and the framework's
  fresh response object; it returns the finished response together with the
  context it leaves behind.
* The lifecycle (`SIGTERM`, `server.close`) is a step function over `Server`.
* The smoke test is a function from what the outside decides (whether the two
  `require` calls throw, whether the listener that loading `app.js` starts binds
  its port, how the HTTP probe goes) to the list of things the run did, the last
  of which carries its exit code.
-/

namespace DemoApp

/-! ## Environment and the `||` default idiom -/

/-- The two environment variables the program reads. `none` is an unset variable
(`undefined` in `process.env`), `some s` a variable set to the text `s`. -/
structure Env where
  PORT : Option String
  NODE_ENV : Option String
  deriving DecidableEq, Repr

/-- The value of `process.env.PORT || 3000`: a string taken from the environment
or the number literal. -/
inductive PortValue where
  | text (s : String)
  | number (n : Nat)
  deriving DecidableEq, Repr

/-- The expression `process.env.NAME || dflt`. The left operand is returned when it
is truthy; `undefined` and the empty string are the falsy values it can take. -/
def envOr {α : Type} (v : Option String) (ofString : String → α) (dflt : α) : α :=
  match v with
  | none => dflt
  | some s => if s = "" then dflt else ofString s

/-- Line 3 of `app.js`: `const PORT = process.env.PORT || 3000`. -/
def PORT (env : Env) : PortValue :=
  envOr env.PORT PortValue.text (PortValue.number 3000)

/-- The expression `process.env.NODE_ENV || 'development'` (used by `/api/info` and by the
startup log). -/
def nodeEnv (env : Env) : String :=
  envOr env.NODE_ENV id "development"

/-- Interpolation of the port value in a template literal: a string is inserted as it
is, an integer number as its decimal digits. -/
def PortValue.render : PortValue → String
  | PortValue.text s => s
  | PortValue.number n => toString n

/-! ## Decimal text and the port the listener is asked for -/

/-- The decimal text of a natural number, as one writes it in `PORT=4000`. -/
def decimalText (p : Nat) : String :=
  String.mk (Nat.toDigits 10 p)

/-- Base-ten value of a list of digit characters, most significant first. -/
def digitsValue (cs : List Char) : Nat :=
  cs.foldl (fun acc c => acc * 10 + (c.toNat - 48)) 0

/-- Numeric reading of a plain decimal digit string; `none` for every other text. -/
def readDecimal (s : String) : Option Nat :=
  if s.data ≠ [] ∧ s.data.all Char.isDigit = true then some (digitsValue s.data) else none

/-- The TCP port number `app.listen(PORT, ...)` names. A number names itself; a string
is converted by the runtime, and a plain decimal digit string is read in base ten.
Only values in the TCP range `0 .. 65535` name a port; `none` stands for an argument
that names no TCP port in this reading. -/
def listenPort : PortValue → Option Nat
  | PortValue.number n => if n ≤ 65535 then some n else none
  | PortValue.text s =>
    match readDecimal s with
    | some n => if n ≤ 65535 then some n else none
    | none => none

/-! ## Process context -/

/-- The process state a request handler can read.

* `clock` is the time value `new Date()` captures, in milliseconds since the epoch;
* `uptimeNanos` is the time since process start, in nanoseconds (`process.uptime()`
  reports it in seconds);
* `env` is `process.env`;
* `version` is `process.version`. -/
structure Context where
  clock : Int
  uptimeNanos : Nat
  env : Env
  version : String
  deriving DecidableEq, Repr

/-- The call `process.uptime()`: seconds since process start. -/
def processUptime (ctx : Context) : ℚ :=
  (ctx.uptimeNanos : ℚ) / 1000000000

/-! ## `Date.prototype.toISOString` -/

/-- Decimal digits of `n`, left-padded with zeros to at least `width` characters. -/
def padZero (width n : Nat) : String :=
  let ds := Nat.toDigits 10 n
  String.mk (List.replicate (width - ds.length) '0' ++ ds)

/-- Proleptic Gregorian (year, month, day) of a day number counted from 1970-01-01. -/
def civilFromDays (day : Int) : Int × Nat × Nat :=
  let z := day + 719468
  let era := z / 146097
  let doe := (z % 146097).toNat
  let yoe := (doe - doe / 1460 + doe / 36524 - doe / 146096) / 365
  let doy := doe - (365 * yoe + yoe / 4 - yoe / 100)
  let mp := (5 * doy + 2) / 153
  let d := doy - (153 * mp + 2) / 5 + 1
  let m := if mp < 10 then mp + 3 else mp - 9
  let y := (yoe : Int) + era * 400 + (if m ≤ 2 then 1 else 0)
  (y, m, d)

/-- The year part of an ISO string: four digits for years 0 to 9999, otherwise a sign
and six digits. -/
def isoYear (y : Int) : String :=
  if 0 ≤ y ∧ y ≤ 9999 then padZero 4 y.toNat
  else (if y < 0 then "-" else "+") ++ padZero 6 y.natAbs

/-- The rendering `YYYY-MM-DDTHH:mm:ss.sssZ` of a time value in epoch milliseconds
(UTC), as `new Date().toISOString()` produces it. -/
def toISOString (t : Int) : String :=
  let day := t / 86400000
  let ms := (t % 86400000).toNat
  let (y, m, d) := civilFromDays day
  isoYear y ++ "-" ++ padZero 2 m ++ "-" ++ padZero 2 d ++ "T" ++
    padZero 2 (ms / 3600000) ++ ":" ++ padZero 2 (ms / 60000 % 60) ++ ":" ++
    padZero 2 (ms / 1000 % 60) ++ "." ++ padZero 3 (ms % 1000) ++ "Z"

/-! ## Requests, responses and the three handlers -/

/-- A value stored in a response object: a string or a number. -/
inductive JsonValue where
  | str (s : String)
  | num (q : ℚ)
  deriving DecidableEq, Repr

/-- An incoming request. The handlers never look at it. -/
structure Request where
  method : String
  url : String
  headers : List (String × String)
  body : String
  deriving DecidableEq, Repr

/-- The response object: the status code and the object handed to `res.json`, as its
fields in source order (`none` until `res.json` is called). -/
structure Response where
  statusCode : Nat
  body : Option (List (String × JsonValue))
  deriving DecidableEq, Repr

/-- The response object a handler receives: the status code starts at 200. -/
def Response.fresh : Response :=
  { statusCode := 200, body := none }

/-- The call `res.status(code)`. -/
def Response.status (res : Response) (code : Nat) : Response :=
  { res with statusCode := code }

/-- The call `res.json(obj)`. -/
def Response.json (res : Response) (obj : List (String × JsonValue)) : Response :=
  { res with body := some obj }

/-- The field names of the response body, in order. -/
def Response.keys (res : Response) : List String :=
  match res.body with
  | none => []
  | some obj => obj.map Prod.fst

/-- Lookup of a field of the response body. -/
def Response.field (res : Response) (key : String) : Option JsonValue :=
  match res.body with
  | none => none
  | some obj => (obj.find? (fun kv => kv.1 = key)).map Prod.snd

/-- The response body without the named fields. -/
def Response.without (res : Response) (dropped : List String) : List (String × JsonValue) :=
  match res.body with
  | none => []
  | some obj => obj.filter (fun kv => !(dropped.contains kv.1))

/-- A route handler: from the request, the context and the fresh response object to the
finished response and the context after the call. -/
abbrev Handler := Request → Context → Response → Response × Context

/-- The handler of `app.get('/', ...)`, lines 9-16. -/
def rootHandler : Handler := fun _req ctx res =>
  (res.json
    [ ("message", JsonValue.str "Welcome to Node.js Demo App!"),
      ("description", JsonValue.str "CI/CD Pipeline with GitHub Actions and Docker"),
      ("status", JsonValue.str "running"),
      ("timestamp", JsonValue.str (toISOString ctx.clock)) ],
   ctx)

/-- The handler of `app.get('/health', ...)`, lines 19-25. -/
def healthHandler : Handler := fun _req ctx res =>
  ((res.status 200).json
    [ ("status", JsonValue.str "healthy"),
      ("uptime", JsonValue.num (processUptime ctx)),
      ("timestamp", JsonValue.str (toISOString ctx.clock)) ],
   ctx)

/-- The handler of `app.get('/api/info', ...)`, lines 28-35. -/
def infoHandler : Handler := fun _req ctx res =>
  (res.json
    [ ("app", JsonValue.str "nodejs-demo-app"),
      ("version", JsonValue.str "1.0.0"),
      ("environment", JsonValue.str (nodeEnv ctx.env)),
      ("nodeVersion", JsonValue.str ctx.version) ],
   ctx)

/-- The routes registered with `app.get`, in registration order. -/
def routes : List (String × Handler) :=
  [("/", rootHandler), ("/health", healthHandler), ("/api/info", infoHandler)]

/-- The handler registered for a GET of exactly this path, if any. -/
def routeFor (path : String) : Option Handler :=
  (routes.find? (fun r => r.1 = path)).map Prod.snd

/-- The response to a GET of `path`: the registered handler run on a fresh response
object; `none` when no route of this program matches. -/
def respond (path : String) (req : Request) (ctx : Context) : Option (Response × Context) :=
  (routeFor path).map (fun h => h req ctx Response.fresh)

/-! ## Startup and lifecycle (`app.js`, lines 37-50) -/

/-- The three lines the `app.listen` callback prints, lines 39-41. -/
def startupLog (env : Env) : List String :=
  [ "🚀 Server is running on port " ++ (PORT env).render,
    "📝 Environment: " ++ nodeEnv env,
    "✅ Health check available at: http://localhost:" ++ (PORT env).render ++ "/health" ]

/-- The state of the running process as far as the lifecycle code touches it.

* `listening`: the server still holds its listening socket and accepts connections;
* `inflight`: requests accepted and not yet answered;
* `closeCallbacks`: the callbacks registered through `server.close(cb)` that have not
  run yet, each given by the line it prints;
* `log`: everything printed so far;
* `exited`: the process has ended. -/
structure Server where
  listening : Bool
  inflight : Nat
  closeCallbacks : List String
  log : List String
  exited : Bool
  deriving DecidableEq, Repr

/-- What can happen to the process. -/
inductive Event where
  | sigterm
  | request
  | requestDone
  deriving DecidableEq, Repr

/-- The process once `app.listen` has bound the port and run its callback. -/
def Server.startup (env : Env) : Server :=
  { listening := true, inflight := 0, closeCallbacks := [], log := startupLog env,
    exited := false }

/-- The server emits `close` once it neither listens nor has a request in flight: the
registered callbacks run, and with nothing left to wait for the process ends. -/
def Server.emitCloseIfDrained (s : Server) : Server :=
  if s.listening = false ∧ s.inflight = 0 then
    { s with log := s.log ++ s.closeCallbacks, closeCallbacks := [], exited := true }
  else s

/-- The call `server.close(cb)`: stop accepting connections, keep the requests in flight,
run `cb` when the server has closed. -/
def Server.close (s : Server) (cb : String) : Server :=
  Server.emitCloseIfDrained
    { s with listening := false, closeCallbacks := s.closeCallbacks ++ [cb] }

/-- The `SIGTERM` listener, lines 45-50. -/
def Server.onSigterm (s : Server) : Server :=
  Server.close { s with log := s.log ++ ["SIGTERM signal received: closing HTTP server"] }
    "HTTP server closed"

/-- One event. A process that has ended reacts to nothing; a connection is accepted only
while the server listens. -/
def Server.step (s : Server) (e : Event) : Server :=
  if s.exited = true then s
  else
    match e with
    | Event.sigterm => s.onSigterm
    | Event.request => if s.listening = true then { s with inflight := s.inflight + 1 } else s
    | Event.requestDone => Server.emitCloseIfDrained { s with inflight := s.inflight - 1 }

/-- A sequence of events, oldest first. -/
def Server.run (s : Server) (events : List Event) : Server :=
  events.foldl Server.step s

/-- The two lifecycle states of the service. -/
inductive Phase where
  | Running
  | ShuttingDown
  deriving DecidableEq, Repr

/-- The lifecycle state of a process: running while the server listens. -/
def Server.phase (s : Server) : Phase :=
  if s.listening = true then Phase.Running else Phase.ShuttingDown

/-! ## The smoke test (`test.js`) -/

/-- The outcome of the HTTP probe: a complete response, an `error` event on the request,
or the call `http.request(options, ...)` itself throwing (it does so when `options.port`
is no port number), which rejects the promise from inside its executor. -/
inductive ProbeOutcome where
  | response (statusCode : Nat) (data : String)
  | error (message : String)
  | threw (message : String)
  deriving DecidableEq, Repr

/-- The fate of the listener that `app.listen(PORT, ...)` starts (`app.js`, line 38) once
the call has returned: the port is bound and the callback prints the startup lines, or
the server emits `error` (the port is in use, say). `app.js` registers no `error`
listener, so the second case is an uncaught exception. -/
inductive ListenOutcome where
  | bound
  | failed (message : String)
  deriving DecidableEq, Repr

/-- Everything outside the script that decides how a run goes.

* `env`: the environment;
* `loadApp`: whether `require('./app.js')` throws, with the message of the error. The
  module has no `require.main` guard: loading it runs all of `app.js`, `app.listen`
  included, and whatever that throws is thrown by the `require`;
* `listen`: the fate of the listener a successful load has started;
* `loadExpress`: whether `require('express')` throws;
* `probe`: how the HTTP probe goes. -/
structure World where
  env : Env
  loadApp : Except String Unit
  listen : ListenOutcome
  loadExpress : Except String Unit
  probe : ProbeOutcome

/-- The options object of `http.request`, lines 29-34. -/
structure RequestOptions where
  hostname : String
  port : PortValue
  path : String
  method : String
  deriving DecidableEq, Repr

/-- What the process running the script does, as seen from outside. `httpRequest` is the
call `http.request(options, ...)`; `uncaughtException` is the runtime reporting an error
nobody handles, after which the process ends with code 1; `exit` is the end of the
process with that code. -/
inductive Action where
  | log (line : String)
  | logError (line : String)
  | requireApp
  | requireExpress
  | httpRequest (options : RequestOptions)
  | uncaughtException (message : String)
  | exit (code : Nat)
  deriving DecidableEq, Repr

/-- The options built inside `testRequest`. -/
def testOptions (env : Env) : RequestOptions :=
  { hostname := "localhost",
    port := envOr env.PORT PortValue.text (PortValue.number 3000),
    path := "/health",
    method := "GET" }

/-- The function `testRequest`, lines 27-60: what it does while it is being called (the
promise executor runs at once), what its event listeners do later, and how its promise
settles (`Except.ok` resolved, `Except.error` rejected with that message). -/
def testRequest (env : Env) (probe : ProbeOutcome) :
    List Action × List Action × Except String Unit :=
  match probe with
  | ProbeOutcome.response statusCode data =>
    if statusCode = 200 then
      ([Action.httpRequest (testOptions env)],
       [ Action.log "✅ Server health check passed",
         Action.log ("   Response: " ++ data) ],
       Except.ok ())
    else
      ([Action.httpRequest (testOptions env)],
       [],
       Except.error ("Health check failed with status: " ++ toString statusCode))
  | ProbeOutcome.error _ =>
    ([Action.httpRequest (testOptions env)],
     [Action.log "ℹ️  Server is not running (this is OK for build tests)"],
     Except.ok ())
  | ProbeOutcome.threw message =>
    ([Action.httpRequest (testOptions env)], [], Except.error message)

/-- The whole script: the actions of a run, in order.

The script runs to its last line without interruption unless `process.exit` ends it: the
two `require` calls, then `testRequest()` up to the call of `http.request`. Only then do
pending events run, and first the one of the listener that loading `app.js` started: if
it failed, the unhandled `error` event ends the process with code 1 before the probe is
heard of; if it is bound, its callback prints the startup lines, the probe's listeners
run, and the handlers of `.then` / `.catch` end the process. -/
def smokeTest (w : World) : List Action :=
  [ Action.log "🧪 Running tests...\n",
    Action.log "Test 1: Loading app module...",
    Action.requireApp ] ++
  match w.loadApp with
  | Except.error message =>
    [ Action.logError ("❌ Failed to load app module: " ++ message), Action.exit 1 ]
  | Except.ok _ =>
    [ Action.log "✅ App module loaded successfully\n",
      Action.log "Test 2: Verifying Express dependency...",
      Action.requireExpress ] ++
    match w.loadExpress with
    | Except.error message =>
      [ Action.logError ("❌ Express is not available: " ++ message), Action.exit 1 ]
    | Except.ok _ =>
      [ Action.log "✅ Express is available\n",
        Action.log "Test 3: Testing basic server response..." ] ++
      match testRequest w.env w.probe with
      | (called, later, settled) =>
        called ++
        match w.listen with
        | ListenOutcome.failed message =>
          [ Action.uncaughtException message, Action.exit 1 ]
        | ListenOutcome.bound =>
          (startupLog w.env).map Action.log ++ later ++
          match settled with
          | Except.ok _ =>
            [ Action.log "\n✅ All tests passed!", Action.exit 0 ]
          | Except.error message =>
            [ Action.logError ("\n❌ Tests failed: " ++ message), Action.exit 1 ]

/-- The exit code of a run: the code its last action ends the process with, if it is
the end of the process. -/
def exitCode (actions : List Action) : Option Nat :=
  match actions.getLast? with
  | some (Action.exit code) => some code
  | _ => none

/-- The checks a run attempts, in order: the two `require` calls and the HTTP probe. -/
def attempts (actions : List Action) : List Action :=
  actions.filter fun a =>
    match a with
    | Action.requireApp => true
    | Action.requireExpress => true
    | Action.httpRequest _ => true
    | _ => false

/-! ## Auxiliary predicates -/

/-- Check A or B succeeded: the `require` call did not throw. -/
def succeeded (r : Except String Unit) : Bool :=
  match r with
  | Except.ok _ => true
  | Except.error _ => false

/-- What holds of every state the process can reach: it has ended exactly when the server
neither listens nor has a request in flight, and once the server stopped listening the
closing line is either printed (process ended) or waits in a registered callback. -/
def Server.Inv (s : Server) : Prop :=
  (s.exited = true ↔ s.listening = false ∧ s.inflight = 0) ∧
  (s.listening = false →
    if s.exited = true then "HTTP server closed" ∈ s.log
    else "HTTP server closed" ∈ s.closeCallbacks)

/-! # Theorems -/

/-! ## The route handlers -/

theorem processUptime_nonneg (ctx : Context) : 0 ≤ processUptime ctx := by
  unfold processUptime
  positivity

/-- C1. Every request to GET /health, in every context and whatever status the response
object carried before, is answered with status 200 and a body with exactly the fields
status, uptime, timestamp: status is "healthy", uptime is the non-negative process
uptime, timestamp is the ISO rendering of the clock; the router sends GET /health to
this handler. -/
theorem health_response (req : Request) (ctx : Context) (res : Response) :
    (healthHandler req ctx res).1.statusCode = 200 ∧
    (healthHandler req ctx res).1.keys = ["status", "uptime", "timestamp"] ∧
    (healthHandler req ctx res).1.field "status" = some (JsonValue.str "healthy") ∧
    (healthHandler req ctx res).1.field "uptime" = some (JsonValue.num (processUptime ctx)) ∧
    0 ≤ processUptime ctx ∧
    (healthHandler req ctx res).1.field "timestamp"
      = some (JsonValue.str (toISOString ctx.clock)) ∧
    respond "/health" req ctx = some (healthHandler req ctx Response.fresh) := by
  refine ⟨rfl, rfl, ?_, ?_, processUptime_nonneg ctx, ?_, ?_⟩
  · simp [healthHandler, Response.json, Response.status, Response.field]
  · simp [healthHandler, Response.json, Response.status, Response.field]
  · simp [healthHandler, Response.json, Response.status, Response.field]
  · simp [respond, routeFor, routes]

/-- C2. Every request to GET / is answered with status 200 and a body with exactly the keys
message, description, status, timestamp: status is "running", message and description are
the two fixed strings, timestamp is the ISO rendering of the clock; the router sends GET /
to this handler. -/
theorem root_response (req : Request) (ctx : Context) :
    (rootHandler req ctx Response.fresh).1.statusCode = 200 ∧
    (rootHandler req ctx Response.fresh).1.keys
      = ["message", "description", "status", "timestamp"] ∧
    (rootHandler req ctx Response.fresh).1.field "status" = some (JsonValue.str "running") ∧
    (rootHandler req ctx Response.fresh).1.field "message"
      = some (JsonValue.str "Welcome to Node.js Demo App!") ∧
    (rootHandler req ctx Response.fresh).1.field "description"
      = some (JsonValue.str "CI/CD Pipeline with GitHub Actions and Docker") ∧
    (rootHandler req ctx Response.fresh).1.field "timestamp"
      = some (JsonValue.str (toISOString ctx.clock)) ∧
    respond "/" req ctx = some (rootHandler req ctx Response.fresh) := by
  refine ⟨rfl, rfl, ?_, ?_, ?_, ?_, ?_⟩
  · simp [rootHandler, Response.json, Response.field]
  · simp [rootHandler, Response.json, Response.field]
  · simp [rootHandler, Response.json, Response.field]
  · simp [rootHandler, Response.json, Response.field]
  · simp [respond, routeFor, routes]

/-- C3, as stated, fails when NODE_ENV is set to the empty string: the variable is set, its
value is the empty text, and the environment field is "development". -/
theorem info_environment_empty_counterexample :
    let ctx : Context :=
      { clock := 0, uptimeNanos := 0, env := { PORT := none, NODE_ENV := some "" },
        version := "v18.0.0" }
    let req : Request := { method := "GET", url := "/api/info", headers := [], body := "" }
    ctx.env.NODE_ENV = some "" ∧
    (infoHandler req ctx Response.fresh).1.field "environment"
      = some (JsonValue.str "development") ∧
    (infoHandler req ctx Response.fresh).1.field "environment" ≠ some (JsonValue.str "") := by
  decide

/-- C3, amended. Every request to GET /api/info is answered with status 200 and a body with
app "nodejs-demo-app", version "1.0.0", nodeVersion the version string of the runtime, and
environment the value of NODE_ENV when that is set to a non-empty text, "development" when
it is unset or set to the empty text. -/
theorem info_response (req : Request) (ctx : Context) :
    (infoHandler req ctx Response.fresh).1.statusCode = 200 ∧
    (infoHandler req ctx Response.fresh).1.keys
      = ["app", "version", "environment", "nodeVersion"] ∧
    (infoHandler req ctx Response.fresh).1.field "app"
      = some (JsonValue.str "nodejs-demo-app") ∧
    (infoHandler req ctx Response.fresh).1.field "version" = some (JsonValue.str "1.0.0") ∧
    (infoHandler req ctx Response.fresh).1.field "nodeVersion"
      = some (JsonValue.str ctx.version) ∧
    (∀ v : String, ctx.env.NODE_ENV = some v → v ≠ "" →
      (infoHandler req ctx Response.fresh).1.field "environment" = some (JsonValue.str v)) ∧
    (ctx.env.NODE_ENV = none ∨ ctx.env.NODE_ENV = some "" →
      (infoHandler req ctx Response.fresh).1.field "environment"
        = some (JsonValue.str "development")) ∧
    respond "/api/info" req ctx = some (infoHandler req ctx Response.fresh) := by
  refine ⟨rfl, rfl, ?_, ?_, ?_, ?_, ?_, ?_⟩
  · simp [infoHandler, Response.json, Response.field]
  · simp [infoHandler, Response.json, Response.field]
  · simp [infoHandler, Response.json, Response.field]
  · intro v hv hne
    simp [infoHandler, Response.json, Response.field, nodeEnv, envOr, hv, hne]
  · intro h
    rcases h with h | h <;>
      simp [infoHandler, Response.json, Response.field, nodeEnv, envOr, h]
  · simp [respond, routeFor, routes]

/-- C8. No handler changes the context, and for two contexts with the same environment and
runtime version (and any two requests) the responses of each of the three routes have the
same status code, the same keys and the same body fields other than timestamp and uptime:
the responses of / agree outside timestamp, those of /api/info are equal. -/
theorem handlers_read_only (req₁ req₂ : Request) (ctx₁ ctx₂ : Context) (res : Response)
    (henv : ctx₁.env = ctx₂.env) (hver : ctx₁.version = ctx₂.version) :
    (∀ h ∈ routes.map Prod.snd, (h req₁ ctx₁ res).2 = ctx₁) ∧
    (∀ h ∈ routes.map Prod.snd,
      (h req₁ ctx₁ res).1.statusCode = (h req₂ ctx₂ res).1.statusCode ∧
      (h req₁ ctx₁ res).1.keys = (h req₂ ctx₂ res).1.keys ∧
      (h req₁ ctx₁ res).1.without ["timestamp", "uptime"]
        = (h req₂ ctx₂ res).1.without ["timestamp", "uptime"]) ∧
    (rootHandler req₁ ctx₁ res).1.without ["timestamp"]
      = (rootHandler req₂ ctx₂ res).1.without ["timestamp"] ∧
    (infoHandler req₁ ctx₁ res).1 = (infoHandler req₂ ctx₂ res).1 := by
  refine ⟨?_, ?_, ?_, ?_⟩
  · intro h hh
    simp only [routes, List.map_cons, List.map_nil, List.mem_cons, List.mem_singleton,
      List.not_mem_nil, or_false] at hh
    rcases hh with h1 | h1 | h1 <;> subst h1 <;> rfl
  · intro h hh
    simp only [routes, List.map_cons, List.map_nil, List.mem_cons, List.mem_singleton,
      List.not_mem_nil, or_false] at hh
    rcases hh with h1 | h1 | h1 <;> subst h1
    · simp [rootHandler, Response.json, Response.without, Response.keys]
    · simp [healthHandler, Response.json, Response.status, Response.without, Response.keys]
    · simp [infoHandler, Response.json, Response.without, Response.keys, henv, hver]
  · simp [rootHandler, Response.json, Response.without]
  · simp [infoHandler, Response.json, henv, hver]

/-- Witness of C8: two contexts that differ in clock and uptime only. -/
theorem handlers_read_only_witness :
    let req : Request := { method := "GET", url := "/health", headers := [], body := "" }
    let env : Env := { PORT := some "4000", NODE_ENV := some "production" }
    let ctx₁ : Context := { clock := 0, uptimeNanos := 5, env := env, version := "v18.0.0" }
    let ctx₂ : Context :=
      { clock := 1700000000000, uptimeNanos := 1500000000, env := env, version := "v18.0.0" }
    ctx₁ ≠ ctx₂ ∧
    (healthHandler req ctx₁ Response.fresh).2 = ctx₁ ∧
    (healthHandler req ctx₁ Response.fresh).1.without ["timestamp", "uptime"]
      = (healthHandler req ctx₂ Response.fresh).1.without ["timestamp", "uptime"] ∧
    (infoHandler req ctx₁ Response.fresh).1 = (infoHandler req ctx₂ Response.fresh).1 := by
  intro req env ctx₁ ctx₂
  have h := handlers_read_only req req ctx₁ ctx₂ Response.fresh rfl rfl
  exact ⟨by decide, h.1 healthHandler (by simp [routes]),
    (h.2.1 healthHandler (by simp [routes])).2.2, h.2.2.2⟩

/-- Witness of C3 amended: NODE_ENV=production. -/
theorem info_response_witness :
    let ctx : Context :=
      { clock := 0, uptimeNanos := 0, env := { PORT := none, NODE_ENV := some "production" },
        version := "v18.0.0" }
    let req : Request := { method := "GET", url := "/api/info", headers := [], body := "" }
    (infoHandler req ctx Response.fresh).1.field "environment"
      = some (JsonValue.str "production") := by
  intro ctx req
  exact (info_response req ctx).2.2.2.2.2.1 "production" rfl (by decide)

/-! ## Decimal text read back -/

theorem digitChar_spec :
    ∀ d, d < 10 → (Nat.digitChar d).isDigit = true ∧ (Nat.digitChar d).toNat - 48 = d := by
  decide

theorem digitsValue_append_singleton (cs : List Char) (c : Char) :
    digitsValue (cs ++ [c]) = digitsValue cs * 10 + (c.toNat - 48) := by
  simp [digitsValue, List.foldl_append]

/-- The digits `Nat.toDigitsCore` puts in front of its accumulator are a non-empty run of
digit characters whose base-ten value is the number converted. -/
theorem toDigitsCore_spec (fuel : Nat) :
    ∀ n ds, n < fuel → ∃ pre, Nat.toDigitsCore 10 fuel n ds = pre ++ ds ∧ pre ≠ [] ∧
      pre.all Char.isDigit = true ∧ digitsValue pre = n := by
  induction fuel with
  | zero => intro n ds h; omega
  | succ fuel ih =>
    intro n ds h
    have hd := digitChar_spec (n % 10) (Nat.mod_lt _ (by decide))
    by_cases h0 : n / 10 = 0
    · refine ⟨[Nat.digitChar (n % 10)], ?_, by simp, by simp [hd.1], ?_⟩
      · simp [Nat.toDigitsCore, h0]
      · simp only [digitsValue, List.foldl_cons, List.foldl_nil, hd.2]
        omega
    · obtain ⟨pre, hpre, hne, hall, hval⟩ :=
        ih (n / 10) (Nat.digitChar (n % 10) :: ds) (by omega)
      refine ⟨pre ++ [Nat.digitChar (n % 10)], ?_, by simp, ?_, ?_⟩
      · simp [Nat.toDigitsCore, h0, hpre]
      · simp [List.all_append, hall, hd.1]
      · rw [digitsValue_append_singleton, hval, hd.2]
        omega

theorem readDecimal_decimalText (p : Nat) : readDecimal (decimalText p) = some p := by
  obtain ⟨pre, hpre, hne, hall, hval⟩ := toDigitsCore_spec (p + 1) p [] (by omega)
  have hdata : (decimalText p).data = pre := by
    simp [decimalText, Nat.toDigits, hpre]
  simp [readDecimal, hdata, hne, hval]
  simpa using hall

theorem decimalText_ne_empty (p : Nat) : decimalText p ≠ "" := by
  obtain ⟨pre, hpre, hne, -, -⟩ := toDigitsCore_spec (p + 1) p [] (by omega)
  intro h
  have hdata : (decimalText p).data = pre := by
    simp [decimalText, Nat.toDigits, hpre]
  rw [h] at hdata
  exact hne hdata.symm

/-! ## Port resolution -/

/-- C4. With PORT unset the service listens on port 3000, and with PORT set to the decimal
text of a port number p (at most 65535) it passes that text to the listener, which names
port p. -/
theorem port_resolution (nodeEnvVar : Option String) (p : Nat) (hp : p ≤ 65535) :
    PORT { PORT := none, NODE_ENV := nodeEnvVar } = PortValue.number 3000 ∧
    listenPort (PORT { PORT := none, NODE_ENV := nodeEnvVar }) = some 3000 ∧
    PORT { PORT := some (decimalText p), NODE_ENV := nodeEnvVar }
      = PortValue.text (decimalText p) ∧
    listenPort (PORT { PORT := some (decimalText p), NODE_ENV := nodeEnvVar }) = some p := by
  have hne := decimalText_ne_empty p
  refine ⟨rfl, rfl, ?_, ?_⟩
  · simp [PORT, envOr, hne]
  · simp [PORT, envOr, hne, listenPort, readDecimal_decimalText, hp]

/-- Witness of C4 at PORT=4000. -/
theorem port_resolution_witness :
    decimalText 4000 = "4000" ∧
    listenPort (PORT { PORT := some "4000", NODE_ENV := none }) = some 4000 ∧
    listenPort (PORT { PORT := none, NODE_ENV := none }) = some 3000 :=
  ⟨by decide, (port_resolution none 4000 (by decide)).2.2.2,
    (port_resolution none 4000 (by decide)).2.1⟩

/-- C5, as stated, fails at PORT=abc, PORT=-1 and PORT=70000: none of these texts is a port
number, and each is passed to the listener as it is, not replaced by 3000. -/
theorem invalid_port_counterexample :
    PORT { PORT := some "abc", NODE_ENV := none } = PortValue.text "abc" ∧
    PORT { PORT := some "-1", NODE_ENV := none } = PortValue.text "-1" ∧
    PORT { PORT := some "70000", NODE_ENV := none } = PortValue.text "70000" ∧
    PORT { PORT := some "abc", NODE_ENV := none } ≠ PortValue.number 3000 ∧
    PORT { PORT := some "abc", NODE_ENV := none } ≠ PORT { PORT := none, NODE_ENV := none } ∧
    listenPort (PortValue.text "abc") = none := by
  decide

/-- C5, amended. With PORT set to the empty text the value passed to the listener is the
number 3000, as with PORT unset; every non-empty PORT text, a port number or not, is passed
to the listener unchanged. -/
theorem port_default_only_when_empty (env : Env) :
    (env.PORT = some "" → PORT env = PortValue.number 3000 ∧
      PORT env = PORT { env with PORT := none }) ∧
    (∀ s : String, env.PORT = some s → s ≠ "" →
      PORT env = PortValue.text s ∧ PORT env ≠ PortValue.number 3000) := by
  constructor
  · intro h
    simp [PORT, envOr, h]
  · intro s h hne
    simp [PORT, envOr, h, hne]

/-- Witness of C5 amended: the empty text and the text abc. -/
theorem port_default_only_when_empty_witness :
    PORT { PORT := some "", NODE_ENV := none } = PortValue.number 3000 ∧
    PORT { PORT := some "abc", NODE_ENV := none } = PortValue.text "abc" :=
  ⟨((port_default_only_when_empty { PORT := some "", NODE_ENV := none }).1 rfl).1,
   ((port_default_only_when_empty { PORT := some "abc", NODE_ENV := none }).2 "abc" rfl
      (by decide)).1⟩

/-- C10. In every environment the port the probe of check C goes to is the value the service
resolves for its listener, and the health-check line of the startup log is the URL made of
the probe's host name, that port and the probe's path, which is /health. -/
theorem probe_matches_service (env : Env) :
    (testOptions env).port = PORT env ∧
    (testOptions env).path = "/health" ∧
    (testOptions env).method = "GET" ∧
    (startupLog env).length = 3 ∧
    (startupLog env).getLast? = some ("✅ Health check available at: http://" ++
      (testOptions env).hostname ++ ":" ++ (testOptions env).port.render ++
      (testOptions env).path) ∧
    (∀ probe, (testRequest env probe).1.head?
      = some (Action.httpRequest (testOptions env))) := by
  refine ⟨rfl, rfl, rfl, rfl, ?_, ?_⟩
  · simp [startupLog, testOptions, PORT, String.append_assoc]
  · intro probe
    cases probe with
    | error m => rfl
    | threw m => rfl
    | response n data =>
      by_cases hn : n = 200 <;> simp [testRequest, hn]

/-! ## The smoke test -/

/-- C6, as stated, fails at PORT=abc: checks A and B succeed, the listener of the loaded
module is bound, the call of http.request throws, so the probe ends in no response at all,
and the exit code is 1, not 0. -/
theorem smokeTest_exitCode_counterexample :
    let w : World :=
      { env := { PORT := some "abc", NODE_ENV := none },
        loadApp := Except.ok (), listen := ListenOutcome.bound, loadExpress := Except.ok (),
        probe := ProbeOutcome.threw "Port should be >= 0 and < 65536. Received type string (\x27abc\x27)." }
    succeeded w.loadApp = true ∧ succeeded w.loadExpress = true ∧
    (¬ ∃ n data, w.probe = ProbeOutcome.response n data ∧ n ≠ 200) ∧
    exitCode (smokeTest w) = some 1 ∧ exitCode (smokeTest w) ≠ some 0 := by
  intro w
  refine ⟨rfl, rfl, ?_, by decide, by decide⟩
  rintro ⟨n, data, h, -⟩
  cases h

/-- C6, amended. When the listener that loading the service module starts binds its port, the
exit code of the smoke test is 0 exactly when check A succeeds, check B succeeds and the
probe ends in a response with status 200 or in a connection error; it is 1 in every other
case: A failed, B failed, a response with another status, or the request call throwing. A
connection error with A and B succeeding gives 0. -/
theorem smokeTest_exitCode (w : World) (hlisten : w.listen = ListenOutcome.bound) :
    (exitCode (smokeTest w) = some 0 ∨ exitCode (smokeTest w) = some 1) ∧
    (exitCode (smokeTest w) = some 0 ↔
      succeeded w.loadApp = true ∧ succeeded w.loadExpress = true ∧
      ((∃ data, w.probe = ProbeOutcome.response 200 data) ∨
        ∃ message, w.probe = ProbeOutcome.error message)) ∧
    (∀ n data, w.probe = ProbeOutcome.response n data → n ≠ 200 →
      exitCode (smokeTest w) = some 1) ∧
    (∀ message, w.probe = ProbeOutcome.threw message → exitCode (smokeTest w) = some 1) ∧
    (∀ message, succeeded w.loadApp = true → succeeded w.loadExpress = true →
      w.probe = ProbeOutcome.error message → exitCode (smokeTest w) = some 0) := by
  obtain ⟨env, a, l, b, probe⟩ := w
  simp only at hlisten
  subst hlisten
  cases a with
  | error ma => simp [smokeTest, exitCode, succeeded]
  | ok ua =>
    cases b with
    | error mb => simp [smokeTest, exitCode, succeeded]
    | ok ub =>
      cases probe with
      | error m => simp [smokeTest, testRequest, exitCode, succeeded, startupLog]
      | threw m => simp [smokeTest, testRequest, exitCode, succeeded, startupLog]
      | response n data =>
        by_cases hn : n = 200
        · simp [smokeTest, testRequest, exitCode, succeeded, startupLog, hn]
        · simp [smokeTest, testRequest, exitCode, succeeded, startupLog, hn]

/-- When the listener that loading the service module starts fails and checks A and B
succeeded, the run ends in an uncaught exception with exit code 1, whatever the probe. -/
theorem smokeTest_listen_failed (w : World) (message : String)
    (hA : succeeded w.loadApp = true) (hB : succeeded w.loadExpress = true)
    (hlisten : w.listen = ListenOutcome.failed message) :
    exitCode (smokeTest w) = some 1 ∧ Action.uncaughtException message ∈ smokeTest w := by
  obtain ⟨env, a, l, b, probe⟩ := w
  simp only at hlisten
  subst hlisten
  cases a with
  | error ma => simp [succeeded] at hA
  | ok ua =>
    cases b with
    | error mb => simp [succeeded] at hB
    | ok ub =>
      cases probe with
      | error m => simp [smokeTest, testRequest, exitCode]
      | threw m => simp [smokeTest, testRequest, exitCode]
      | response n data =>
        by_cases hn : n = 200
        · simp [smokeTest, testRequest, exitCode, hn]
        · simp [smokeTest, testRequest, exitCode, hn]

/-- C7. A failing check A ends the run with exit code 1 right after its error line, with
neither check B nor the HTTP probe attempted; a failing check B after a successful check A
ends the run with exit code 1 without the HTTP probe; with A and B succeeding the checks
attempted are A, B and the probe, in this order. -/
theorem smokeTest_aborts (w : World) :
    (∀ message, w.loadApp = Except.error message →
      smokeTest w =
        [ Action.log "🧪 Running tests...\n",
          Action.log "Test 1: Loading app module...",
          Action.requireApp,
          Action.logError ("❌ Failed to load app module: " ++ message),
          Action.exit 1 ] ∧
      exitCode (smokeTest w) = some 1 ∧
      attempts (smokeTest w) = [Action.requireApp]) ∧
    (∀ message, succeeded w.loadApp = true → w.loadExpress = Except.error message →
      smokeTest w =
        [ Action.log "🧪 Running tests...\n",
          Action.log "Test 1: Loading app module...",
          Action.requireApp,
          Action.log "✅ App module loaded successfully\n",
          Action.log "Test 2: Verifying Express dependency...",
          Action.requireExpress,
          Action.logError ("❌ Express is not available: " ++ message),
          Action.exit 1 ] ∧
      exitCode (smokeTest w) = some 1 ∧
      attempts (smokeTest w) = [Action.requireApp, Action.requireExpress]) ∧
    (succeeded w.loadApp = true → succeeded w.loadExpress = true →
      attempts (smokeTest w)
        = [Action.requireApp, Action.requireExpress, Action.httpRequest (testOptions w.env)]) := by
  obtain ⟨env, a, l, b, probe⟩ := w
  refine ⟨?_, ?_, ?_⟩
  · intro message h
    simp only at h
    subst h
    simp [smokeTest, exitCode, attempts]
  · intro message ha h
    simp only at h
    subst h
    cases a with
    | error ma => simp [succeeded] at ha
    | ok ua => simp [smokeTest, exitCode, attempts]
  · intro ha hb
    cases a with
    | error ma => simp [succeeded] at ha
    | ok ua =>
      cases b with
      | error mb => simp [succeeded] at hb
      | ok ub =>
        cases l <;> cases probe with
        | error m => simp [smokeTest, testRequest, attempts, startupLog]
        | threw m => simp [smokeTest, testRequest, attempts, startupLog]
        | response n data =>
          by_cases hn : n = 200
          · simp [smokeTest, testRequest, attempts, startupLog, hn]
          · simp [smokeTest, testRequest, attempts, startupLog, hn]

/-- Witness of C7: check A throws, and check B throws after A loaded. -/
theorem smokeTest_aborts_witness :
    let env : Env := { PORT := none, NODE_ENV := none }
    let wA : World :=
      { env := env, loadApp := Except.error "Cannot find module",
        listen := ListenOutcome.bound, loadExpress := Except.ok (),
        probe := ProbeOutcome.response 200 "ok" }
    let wB : World :=
      { env := env, loadApp := Except.ok (), listen := ListenOutcome.bound,
        loadExpress := Except.error "Cannot find module",
        probe := ProbeOutcome.response 200 "ok" }
    attempts (smokeTest wA) = [Action.requireApp] ∧ exitCode (smokeTest wA) = some 1 ∧
    attempts (smokeTest wB) = [Action.requireApp, Action.requireExpress] ∧
    exitCode (smokeTest wB) = some 1 := by
  intro env wA wB
  exact ⟨((smokeTest_aborts wA).1 "Cannot find module" rfl).2.2,
    ((smokeTest_aborts wA).1 "Cannot find module" rfl).2.1,
    ((smokeTest_aborts wB).2.1 "Cannot find module" rfl rfl).2.2,
    ((smokeTest_aborts wB).2.1 "Cannot find module" rfl rfl).2.1⟩

/-- Witness of C6 amended: the listener is bound, both loads succeed, the probe ends in a
connection error: exit code 0; a response with status 500 gives 1. -/
theorem smokeTest_exitCode_witness :
    let env : Env := { PORT := none, NODE_ENV := none }
    let w : World :=
      { env := env, loadApp := Except.ok (), listen := ListenOutcome.bound,
        loadExpress := Except.ok (), probe := ProbeOutcome.error "connect ECONNREFUSED" }
    w.listen = ListenOutcome.bound ∧
    exitCode (smokeTest w) = some 0 ∧
    exitCode (smokeTest { w with probe := ProbeOutcome.response 500 "" }) = some 1 := by
  intro env w
  exact ⟨rfl, (smokeTest_exitCode w rfl).2.2.2.2 "connect ECONNREFUSED" rfl rfl rfl,
    (smokeTest_exitCode { w with probe := ProbeOutcome.response 500 "" } rfl).2.2.1 500 ""
      rfl (by decide)⟩

/-! ## Lifecycle: invariant, irreversibility, draining -/

theorem Server.inv_startup (env : Env) : (Server.startup env).Inv := by
  simp [Server.Inv, Server.startup]

theorem Server.inv_step (s : Server) (e : Event) (h : s.Inv) : (s.step e).Inv := by
  obtain ⟨listening, inflight, cbs, log, exited⟩ := s
  have hkeep := h
  obtain ⟨h1, h2⟩ := h
  simp only at h1 h2
  cases exited with
  | true =>
    have hs : Server.step ⟨listening, inflight, cbs, log, true⟩ e
        = ⟨listening, inflight, cbs, log, true⟩ := by simp [Server.step]
    rw [hs]
    exact hkeep
  | false =>
    cases e with
    | sigterm =>
      by_cases hi : inflight = 0
      · simp [Server.step, Server.onSigterm, Server.close, Server.emitCloseIfDrained,
          Server.Inv, hi]
      · simp [Server.step, Server.onSigterm, Server.close, Server.emitCloseIfDrained,
          Server.Inv, hi]
    | request =>
      cases listening with
      | true => simp [Server.step, Server.Inv]
      | false =>
        have hs : Server.step ⟨false, inflight, cbs, log, false⟩ Event.request
            = ⟨false, inflight, cbs, log, false⟩ := by simp [Server.step]
        rw [hs]
        exact hkeep
    | requestDone =>
      cases listening with
      | true => simp [Server.step, Server.emitCloseIfDrained, Server.Inv]
      | false =>
        simp only [Bool.false_eq_true, true_and, false_iff, ↓reduceIte, forall_const] at h1 h2
        by_cases hi : inflight - 1 = 0
        · simp [Server.step, Server.emitCloseIfDrained, Server.Inv, hi, h2]
        · simp [Server.step, Server.emitCloseIfDrained, Server.Inv, hi, h2]

theorem Server.inv_run (events : List Event) : ∀ s : Server, s.Inv → (s.run events).Inv := by
  induction events with
  | nil => intro s h; exact h
  | cons e es ih => intro s h; exact ih (s.step e) (Server.inv_step s e h)

theorem Server.step_listening (s : Server) (e : Event) (h : s.listening = false) :
    (s.step e).listening = false := by
  obtain ⟨listening, inflight, cbs, log, exited⟩ := s
  simp only at h
  subst h
  cases exited <;> cases e <;>
    simp [Server.step, Server.onSigterm, Server.close, Server.emitCloseIfDrained] <;>
    split <;> simp

theorem Server.run_listening (events : List Event) :
    ∀ s : Server, s.listening = false → (s.run events).listening = false := by
  induction events with
  | nil => intro s h; exact h
  | cons e es ih => intro s h; exact ih (s.step e) (Server.step_listening s e h)

theorem Server.run_exited (events : List Event) :
    ∀ s : Server, s.exited = true → s.run events = s := by
  induction events with
  | nil => intro s _; rfl
  | cons e es ih =>
    intro s h
    have hs : s.step e = s := by simp [Server.step, h]
    show (s.step e).run es = s
    rw [hs]
    exact ih s h

/-- Draining: when the server no longer listens, answering the requests in flight ends the
process with the closing line printed. -/
theorem Server.drain (n : Nat) :
    ∀ s : Server, s.Inv → s.listening = false → s.inflight = n →
      (s.run (List.replicate n Event.requestDone)).exited = true ∧
      "HTTP server closed" ∈ (s.run (List.replicate n Event.requestDone)).log := by
  induction n with
  | zero =>
    intro s hinv hl hi
    have hex : s.exited = true := hinv.1.2 ⟨hl, hi⟩
    have h2 := hinv.2 hl
    simp only [hex, ↓reduceIte] at h2
    exact ⟨hex, h2⟩
  | succ n ih =>
    intro s hinv hl hi
    have hne : s.exited = false := by
      cases hex : s.exited with
      | false => rfl
      | true => have := (hinv.1.1 hex).2; omega
    have hstep : (s.step Event.requestDone).inflight = n := by
      simp only [Server.step, hne, Bool.false_eq_true, ↓reduceIte, Server.emitCloseIfDrained]
      split <;> simp [hi]
    exact ih (s.step Event.requestDone) (Server.inv_step s _ hinv)
      (Server.step_listening s _ hl) hstep

/-- C9. Started from Running, the service is always in one of the two states Running and
ShuttingDown; it leaves Running only on the termination signal, which always takes it to
ShuttingDown; from ShuttingDown no sequence of signals, requests and completed requests
leads back to Running; and ShuttingDown ends, once the requests in flight are answered,
with the closing line printed and the process ended, after which nothing happens. -/
theorem lifecycle (env : Env) (events : List Event) :
    (Server.startup env).phase = Phase.Running ∧
    (((Server.startup env).run events).phase = Phase.Running ∨
      ((Server.startup env).run events).phase = Phase.ShuttingDown) ∧
    (∀ e, ((Server.startup env).run events).phase = Phase.Running →
      ((((Server.startup env).run events).step e).phase = Phase.ShuttingDown ↔
        e = Event.sigterm)) ∧
    (((Server.startup env).run events).phase = Phase.ShuttingDown →
      ∀ more, (((Server.startup env).run events).run more).phase = Phase.ShuttingDown) ∧
    (((Server.startup env).run events).phase = Phase.ShuttingDown →
      ∀ more,
        ((((Server.startup env).run events).run
          (List.replicate ((Server.startup env).run events).inflight Event.requestDone)).exited
            = true ∧
        "HTTP server closed" ∈ (((Server.startup env).run events).run
          (List.replicate ((Server.startup env).run events).inflight Event.requestDone)).log ∧
        (((Server.startup env).run events).run
          (List.replicate ((Server.startup env).run events).inflight Event.requestDone)).run more
          = ((Server.startup env).run events).run
            (List.replicate ((Server.startup env).run events).inflight Event.requestDone))) ∧
    (((Server.startup env).run events).exited = true →
      ((Server.startup env).run events).phase = Phase.ShuttingDown) := by
  have hinv := Server.inv_run events _ (Server.inv_startup env)
  generalize (Server.startup env).run events = s at hinv
  have hphase : ∀ t : Server, t.phase = Phase.ShuttingDown ↔ t.listening = false := by
    intro t
    cases ht : t.listening <;> simp [Server.phase, ht]
  refine ⟨rfl, ?_, ?_, ?_, ?_, ?_⟩
  · cases hl : s.listening <;> simp [Server.phase, hl]
  · intro e hrun
    have hl : s.listening = true := by
      cases hl : s.listening with
      | true => rfl
      | false => simp [Server.phase, hl] at hrun
    have hne : s.exited = false := by
      cases hex : s.exited with
      | false => rfl
      | true => have := (hinv.1.1 hex).1; simp [hl] at this
    rw [hphase]
    cases e with
    | sigterm =>
      simp only [Server.step, hne, Bool.false_eq_true, ↓reduceIte, Server.onSigterm,
        Server.close, Server.emitCloseIfDrained, iff_true]
      split <;> simp
    | request => simp [Server.step, hne, hl]
    | requestDone =>
      simp [Server.step, hne, hl, Server.emitCloseIfDrained]
  · intro h more
    rw [hphase] at h ⊢
    exact Server.run_listening more s h
  · intro h more
    rw [hphase] at h
    obtain ⟨hex, hlog⟩ := Server.drain s.inflight s hinv h rfl
    exact ⟨hex, hlog, Server.run_exited more _ hex⟩
  · intro hex
    rw [hphase]
    exact (hinv.1.1 hex).1

/-- Witness of C9: a request arrives, the signal arrives, the request is answered. -/
theorem lifecycle_witness :
    let env : Env := { PORT := none, NODE_ENV := none }
    let s := (Server.startup env).run [Event.request, Event.sigterm]
    s.phase = Phase.ShuttingDown ∧ s.exited = false ∧ s.inflight = 1 ∧
    (s.run (List.replicate s.inflight Event.requestDone)).exited = true ∧
    (s.run [Event.requestDone]).log
      = startupLog env ++ ["SIGTERM signal received: closing HTTP server", "HTTP server closed"] ∧
    (s.run [Event.request, Event.sigterm]).phase = Phase.ShuttingDown := by
  intro env s
  have h := lifecycle env [Event.request, Event.sigterm]
  have hs : s.phase = Phase.ShuttingDown := by decide
  exact ⟨hs, by decide, by decide, (h.2.2.2.2.1 hs []).1, by decide,
    h.2.2.2.1 hs [Event.request, Event.sigterm]⟩

end DemoApp
